import Mathlib

/-!
Shallow embedding of the daily time-accounting engine of the kintai-kanri-sheet
repository (utils/time-calculation.ts): the helper `timeToMinutes`, the main
statistics function `calculateDailyStats`, and the salary estimator
`calculateEstimatedSalary`, together with theorems checking the
natural-language specification against these definitions.
-/

namespace Kintai

/-- Model of the JavaScript expression `str.split(sep)` for a one-character
separator, working on the character list of the string.  Splitting the empty
list yields `[[]]`, matching the JavaScript result `[""]`. -/
def jsSplit (sep : Char) : List Char → List (List Char)
  | [] => [[]]
  | c :: rest =>
    let r := jsSplit sep rest
    if c = sep then [] :: r
    else
      match r with
      | [] => [[c]]
      | h :: t => (c :: h) :: t

/-- Numeric value of a list of decimal digit characters (most significant
first), as accumulated by repeated multiplication by ten. -/
def digitsToNat (cs : List Char) : Nat :=
  cs.foldl (fun n c => 10 * n + (c.toNat - 48)) 0

/-- Model of the JavaScript `Number(s)` conversion applied to the pieces of an
`HH:mm` string; `none` stands for `NaN`.  The empty string converts to `0` and
a (possibly `-`-signed) string of decimal digits converts to its value, exactly
as in JavaScript; other numeric syntaxes (fractions, exponents, hexadecimal,
surrounding whitespace, a leading `+`) never arise from the time fields this
engine receives and are conservatively mapped to `NaN`. -/
def jsNumber (cs : List Char) : Option Int :=
  if cs.isEmpty then some 0
  else if cs.all (fun c => c.isDigit) then some (Int.ofNat (digitsToNat cs))
  else
    match cs with
    | '-' :: rest =>
      if !rest.isEmpty && rest.all (fun c => c.isDigit) then
        some (-(Int.ofNat (digitsToNat rest)))
      else none
    | _ => none

/-- Embedding of `timeToMinutes(timeStr: string | undefined)` from
utils/time-calculation.ts: `none` models `undefined`; an empty or colon-free
string yields `0`; otherwise the string is split on `:`, the first two pieces
are converted with `Number`, and `NaN` in either piece yields `0`, else the
result is `hours * 60 + minutes`. -/
def timeToMinutes (timeStr : Option String) : Int :=
  match timeStr with
  | none => 0
  | some s =>
    if s.data.isEmpty || !s.data.contains ':' then 0
    else
      match (jsSplit ':' s.data)[0]?, (jsSplit ':' s.data)[1]? with
      | some hs, some ms =>
        match jsNumber hs, jsNumber ms with
        | some hours, some minutes => hours * 60 + minutes
        | _, _ => 0
      | _, _ => 0

/-- Embedding of the `WorkSpan` interface from types/index.ts. -/
structure WorkSpan where
  id : String
  start_time : String
  end_time : String
deriving Repr, DecidableEq

/-- Embedding of the `BreakTime` interface from types/index.ts. -/
structure BreakTime where
  start : String
  «end» : String
deriving Repr, DecidableEq

/-- The record `{ workTime, overtime, nightTime }` returned by
`calculateDailyStats`. -/
structure DailyStats where
  workTime : Int
  overtime : Int
  nightTime : Int
deriving Repr, DecidableEq

/-- The constant `NIGHT_START = 1320` (22:00) of `calculateDailyStats`. -/
def NIGHT_START : Int := 1320

/-- The break-deduction loop of `calculateDailyStats`, common to the working
window and the night window: each break with `brkEnd > brkStart` contributes
the length of its overlap with the window `[lo, hi]`, computed as
`min hi brkEnd - max lo brkStart` when that is positive. -/
def breakDeduction (lo hi : Int) (breaks : List BreakTime) : Int :=
  (breaks.map (fun brk =>
    let brkStart := timeToMinutes (some brk.start)
    let brkEnd := timeToMinutes (some brk.«end»)
    if brkEnd > brkStart then
      let overlapStart := max lo brkStart
      let overlapEnd := min hi brkEnd
      if overlapEnd > overlapStart then overlapEnd - overlapStart else 0
    else 0)).sum

/-- Contribution of one work span to `totalWorkMinutes` in
`calculateDailyStats`: spans failing the guard
`spanStart > 0 && spanEnd > spanStart` contribute nothing, the others
contribute `max 0 (duration - deduction)`. -/
def spanWorkMinutes (breaks : List BreakTime) (span : WorkSpan) : Int :=
  let spanStart := timeToMinutes (some span.start_time)
  let spanEnd := timeToMinutes (some span.end_time)
  if spanStart > 0 ∧ spanEnd > spanStart then
    max 0 ((spanEnd - spanStart) - breakDeduction spanStart spanEnd breaks)
  else 0

/-- Contribution of one work span to `totalNightMinutes` in
`calculateDailyStats`: for spans passing the guard, the part of the span at or
after `NIGHT_START` (window from `max spanStart 1320` to `max spanEnd 1320`),
minus the break overlaps with that window, clamped at zero. -/
def spanNightMinutes (breaks : List BreakTime) (span : WorkSpan) : Int :=
  let spanStart := timeToMinutes (some span.start_time)
  let spanEnd := timeToMinutes (some span.end_time)
  if spanStart > 0 ∧ spanEnd > spanStart then
    let nightWorkStart := max spanStart NIGHT_START
    let nightWorkEnd := max spanEnd NIGHT_START
    if nightWorkEnd > nightWorkStart then
      max 0 ((nightWorkEnd - nightWorkStart) -
        breakDeduction nightWorkStart nightWorkEnd breaks)
    else 0
  else 0

/-- Embedding of `calculateDailyStats(workSpans, breaks)` from
utils/time-calculation.ts: sum the work and night contributions over all
spans, then `overtime = totalWorkMinutes > 480 ? totalWorkMinutes - 480 : 0`. -/
def calculateDailyStats (workSpans : List WorkSpan) (breaks : List BreakTime) :
    DailyStats :=
  let totalWorkMinutes := (workSpans.map (spanWorkMinutes breaks)).sum
  let totalNightMinutes := (workSpans.map (spanNightMinutes breaks)).sum
  { workTime := totalWorkMinutes
    overtime := if totalWorkMinutes > 480 then totalWorkMinutes - 480 else 0
    nightTime := totalNightMinutes }

/-- Embedding of `calculateEstimatedSalary` from utils/time-calculation.ts over
exact rationals: base pay for all worked hours plus 25 percent premiums on the
overtime and night hours, floored to an integer. -/
def calculateEstimatedSalary (totalWorkMinutes overtimeMinutes nightMinutes
    hourlyWage : ℚ) : Int :=
  let totalHours := totalWorkMinutes / 60
  let overtimeHours := overtimeMinutes / 60
  let nightHours := nightMinutes / 60
  let baseSalary := totalHours * hourlyWage
  let overtimeAllowance := overtimeHours * hourlyWage * 0.25
  let nightAllowance := nightHours * hourlyWage * 0.25
  Int.floor (baseSalary + overtimeAllowance + nightAllowance)

/-- Every span contributes a non-negative amount of worked minutes. -/
lemma spanWorkMinutes_nonneg (breaks : List BreakTime) (span : WorkSpan) :
    0 ≤ spanWorkMinutes breaks span := by
  simp only [spanWorkMinutes]
  split
  · exact le_max_left 0 _
  · exact le_refl 0

/-- Every span contributes a non-negative amount of night minutes. -/
lemma spanNightMinutes_nonneg (breaks : List BreakTime) (span : WorkSpan) :
    0 ≤ spanNightMinutes breaks span := by
  simp only [spanNightMinutes]
  split
  · split
    · exact le_max_left 0 _
    · exact le_refl 0
  · exact le_refl 0

/-- A span failing the guard `spanStart > 0 && spanEnd > spanStart` contributes
no worked minutes. -/
lemma spanWorkMinutes_eq_zero (breaks : List BreakTime) (span : WorkSpan)
    (h : ¬(timeToMinutes (some span.start_time) > 0 ∧
      timeToMinutes (some span.end_time) > timeToMinutes (some span.start_time))) :
    spanWorkMinutes breaks span = 0 := by
  simp only [spanWorkMinutes]
  rw [if_neg h]

/-- A span failing the guard `spanStart > 0 && spanEnd > spanStart` contributes
no night minutes. -/
lemma spanNightMinutes_eq_zero (breaks : List BreakTime) (span : WorkSpan)
    (h : ¬(timeToMinutes (some span.start_time) > 0 ∧
      timeToMinutes (some span.end_time) > timeToMinutes (some span.start_time))) :
    spanNightMinutes breaks span = 0 := by
  simp only [spanNightMinutes]
  rw [if_neg h]

/-- Dropping a span that fails the guard leaves the whole statistics record
unchanged. -/
lemma calculateDailyStats_cons_skip (span : WorkSpan) (spans : List WorkSpan)
    (breaks : List BreakTime)
    (h : ¬(timeToMinutes (some span.start_time) > 0 ∧
      timeToMinutes (some span.end_time) > timeToMinutes (some span.start_time))) :
    calculateDailyStats (span :: spans) breaks = calculateDailyStats spans breaks := by
  simp only [calculateDailyStats, List.map_cons, List.sum_cons,
    spanWorkMinutes_eq_zero breaks span h, spanNightMinutes_eq_zero breaks span h,
    zero_add]

/-- C3: for every input, workMinutes, nightMinutes and overtimeMinutes are
non-negative and `overtimeMinutes = max 0 (workMinutes - 480)`, the 480-minute
threshold being applied once to the daily total. -/
theorem calculateDailyStats_nonneg_and_overtime (spans : List WorkSpan)
    (breaks : List BreakTime) :
    0 ≤ (calculateDailyStats spans breaks).workTime ∧
    0 ≤ (calculateDailyStats spans breaks).nightTime ∧
    0 ≤ (calculateDailyStats spans breaks).overtime ∧
    (calculateDailyStats spans breaks).overtime =
      max 0 ((calculateDailyStats spans breaks).workTime - 480) := by
  have hw : 0 ≤ (spans.map (spanWorkMinutes breaks)).sum := by
    refine List.sum_nonneg ?_
    intro x hx
    obtain ⟨s, _, rfl⟩ := List.mem_map.mp hx
    exact spanWorkMinutes_nonneg breaks s
  have hn : 0 ≤ (spans.map (spanNightMinutes breaks)).sum := by
    refine List.sum_nonneg ?_
    intro x hx
    obtain ⟨s, _, rfl⟩ := List.mem_map.mp hx
    exact spanNightMinutes_nonneg breaks s
  refine ⟨hw, hn, ?_, ?_⟩
  · simp only [calculateDailyStats]
    split <;> omega
  · simp only [calculateDailyStats]
    split <;> omega

/-- C4: the scenario spans = [09:00 to 23:00], breaks = [] yields
workMinutes = 840, overtimeMinutes = 360 and nightMinutes = 60. -/
theorem calculateDailyStats_scenario2 :
    calculateDailyStats [⟨"s1", "09:00", "23:00"⟩] [] =
      { workTime := 840, overtime := 360, nightTime := 60 } := by
  decide

/-- C1 counterexample: on spans = [22:00 to 02:00] with no breaks the code
returns workMinutes = 0 and nightMinutes = 0, not the 240 and 240 the claim
demands, because the guard `spanEnd > spanStart` fails and the span is
skipped instead of being midnight-adjusted. -/
theorem calculateDailyStats_midnight_counterexample :
    (calculateDailyStats [⟨"s1", "22:00", "02:00"⟩] []).workTime = 0 ∧
    (calculateDailyStats [⟨"s1", "22:00", "02:00"⟩] []).workTime ≠ 240 ∧
    (calculateDailyStats [⟨"s1", "22:00", "02:00"⟩] []).nightTime ≠ 240 := by
  decide

/-- C1 amended: `calculateDailyStats` performs no +1440 midnight adjustment;
every span whose end is numerically at most its start is skipped and
contributes nothing, and the 22:00 to 02:00 scenario returns all zeros. -/
theorem calculateDailyStats_midnight_skipped :
    (∀ (span : WorkSpan) (spans : List WorkSpan) (breaks : List BreakTime),
      timeToMinutes (some span.end_time) ≤ timeToMinutes (some span.start_time) →
      calculateDailyStats (span :: spans) breaks = calculateDailyStats spans breaks) ∧
    calculateDailyStats [⟨"s1", "22:00", "02:00"⟩] [] =
      { workTime := 0, overtime := 0, nightTime := 0 } := by
  constructor
  · intro span spans breaks h
    exact calculateDailyStats_cons_skip span spans breaks (by omega)
  · decide

/-- C1 witness: the amended statement instantiated on the 22:00 to 02:00 span
in front of a 09:00 to 10:00 span. -/
theorem calculateDailyStats_midnight_skipped_witness :
    timeToMinutes (some "02:00") ≤ timeToMinutes (some "22:00") ∧
    calculateDailyStats [⟨"a", "22:00", "02:00"⟩, ⟨"b", "09:00", "10:00"⟩] [] =
      calculateDailyStats [⟨"b", "09:00", "10:00"⟩] [] :=
  ⟨by decide,
    calculateDailyStats_midnight_skipped.1 ⟨"a", "22:00", "02:00"⟩
      [⟨"b", "09:00", "10:00"⟩] [] (by decide)⟩

/-- A break whose end is numerically at most its start fails the guard
`brkEnd > brkStart` and contributes nothing to any deduction window. -/
lemma breakDeduction_cons_skip (brk : BreakTime)
    (h : timeToMinutes (some brk.«end») ≤ timeToMinutes (some brk.start))
    (lo hi : Int) (breaks : List BreakTime) :
    breakDeduction lo hi (brk :: breaks) = breakDeduction lo hi breaks := by
  simp only [breakDeduction, List.map_cons, List.sum_cons]
  rw [if_neg (not_lt.mpr h), zero_add]

/-- Work contribution of any span is unchanged by an inverted break. -/
lemma spanWorkMinutes_cons_skip (brk : BreakTime)
    (h : timeToMinutes (some brk.«end») ≤ timeToMinutes (some brk.start))
    (breaks : List BreakTime) :
    spanWorkMinutes (brk :: breaks) = spanWorkMinutes breaks := by
  funext span
  simp only [spanWorkMinutes, breakDeduction_cons_skip brk h]

/-- Night contribution of any span is unchanged by an inverted break. -/
lemma spanNightMinutes_cons_skip (brk : BreakTime)
    (h : timeToMinutes (some brk.«end») ≤ timeToMinutes (some brk.start))
    (breaks : List BreakTime) :
    spanNightMinutes (brk :: breaks) = spanNightMinutes breaks := by
  funext span
  simp only [spanNightMinutes, breakDeduction_cons_skip brk h]

/-- C2 counterexample: with span 22:00 to 23:30 and break 22:30 to 00:00 the
code returns workMinutes = 90: the midnight-crossing break is ignored, whereas
deducting with the adjusted break end 1440 as the claim demands would give
90 - 60 = 30. -/
theorem calculateDailyStats_breakMidnight_counterexample :
    (calculateDailyStats [⟨"s1", "22:00", "23:30"⟩] [⟨"22:30", "00:00"⟩]).workTime = 90 ∧
    (calculateDailyStats [⟨"s1", "22:00", "23:30"⟩] [⟨"22:30", "00:00"⟩]).workTime ≠ 30 := by
  decide

/-- C2 amended: a break whose end is numerically at most its start is not
midnight-adjusted but skipped entirely: it contributes no deduction to the
work or night minutes of any span. -/
theorem calculateDailyStats_invertedBreak_skipped (spans : List WorkSpan)
    (breaks : List BreakTime) (brk : BreakTime)
    (h : timeToMinutes (some brk.«end») ≤ timeToMinutes (some brk.start)) :
    calculateDailyStats spans (brk :: breaks) = calculateDailyStats spans breaks := by
  simp only [calculateDailyStats, spanWorkMinutes_cons_skip brk h,
    spanNightMinutes_cons_skip brk h]

/-- C2 witness: the amended statement instantiated on the 22:30 to 00:00 break
under the 22:00 to 23:30 span. -/
theorem calculateDailyStats_invertedBreak_skipped_witness :
    timeToMinutes (some "00:00") ≤ timeToMinutes (some "22:30") ∧
    calculateDailyStats [⟨"s1", "22:00", "23:30"⟩] [⟨"22:30", "00:00"⟩] =
      calculateDailyStats [⟨"s1", "22:00", "23:30"⟩] [] :=
  ⟨by decide,
    calculateDailyStats_invertedBreak_skipped [⟨"s1", "22:00", "23:30"⟩] []
      ⟨"22:30", "00:00"⟩ (by decide)⟩

/-- C7: a span whose start equals its end contributes zero worked minutes and
zero night minutes: dropping it does not change the result, and the (total)
function cannot fail. -/
theorem calculateDailyStats_zeroLengthSpan (span : WorkSpan)
    (spans : List WorkSpan) (breaks : List BreakTime)
    (h : timeToMinutes (some span.start_time) = timeToMinutes (some span.end_time)) :
    calculateDailyStats (span :: spans) breaks = calculateDailyStats spans breaks :=
  calculateDailyStats_cons_skip span spans breaks (by omega)

/-- C7 witness: a 10:00 to 10:00 span in front of a 09:00 to 17:00 span
changes nothing. -/
theorem calculateDailyStats_zeroLengthSpan_witness :
    timeToMinutes (some "10:00") = timeToMinutes (some "10:00") ∧
    calculateDailyStats [⟨"z", "10:00", "10:00"⟩, ⟨"b", "09:00", "17:00"⟩] [] =
      calculateDailyStats [⟨"b", "09:00", "17:00"⟩] [] :=
  ⟨rfl,
    calculateDailyStats_zeroLengthSpan ⟨"z", "10:00", "10:00"⟩
      [⟨"b", "09:00", "17:00"⟩] [] rfl⟩

/-- C5: the salary estimator computes
floor(base + overtimePremium + nightPremium) with the premiums added on top of
a base that already covers all worked minutes, and the two scenario values
come out as 12000 and 23625. -/
theorem calculateEstimatedSalary_spec :
    (∀ w o n hw : ℚ, calculateEstimatedSalary w o n hw =
      Int.floor (w / 60 * hw + o / 60 * hw * 0.25 + n / 60 * hw * 0.25)) ∧
    calculateEstimatedSalary 480 0 0 1500 = 12000 ∧
    calculateEstimatedSalary 840 360 60 1500 = 23625 := by
  refine ⟨fun w o n hw => rfl, ?_, ?_⟩
  · show Int.floor ((480 : ℚ) / 60 * 1500 + 0 / 60 * 1500 * 0.25 +
      0 / 60 * 1500 * 0.25) = 12000
    rw [show ((480 : ℚ) / 60 * 1500 + 0 / 60 * 1500 * 0.25 +
      0 / 60 * 1500 * 0.25) = ((12000 : ℤ) : ℚ) by norm_num]
    exact Int.floor_intCast 12000
  · show Int.floor ((840 : ℚ) / 60 * 1500 + 360 / 60 * 1500 * 0.25 +
      60 / 60 * 1500 * 0.25) = 23625
    rw [show ((840 : ℚ) / 60 * 1500 + 360 / 60 * 1500 * 0.25 +
      60 / 60 * 1500 * 0.25) = ((23625 : ℤ) : ℚ) by norm_num]
    exact Int.floor_intCast 23625

/-- A break whose interval does not meet the window `[lo, hi]` adds nothing to
the deduction over that window. -/
lemma breakDeduction_cons_no_overlap (brk : BreakTime) (lo hi : Int)
    (breaks : List BreakTime)
    (h : min hi (timeToMinutes (some brk.«end»)) ≤
      max lo (timeToMinutes (some brk.start))) :
    breakDeduction lo hi (brk :: breaks) = breakDeduction lo hi breaks := by
  simp only [breakDeduction, List.map_cons, List.sum_cons]
  have h0 : (if timeToMinutes (some brk.«end») > timeToMinutes (some brk.start) then
      if min hi (timeToMinutes (some brk.«end»)) >
          max lo (timeToMinutes (some brk.start)) then
        min hi (timeToMinutes (some brk.«end»)) -
          max lo (timeToMinutes (some brk.start))
      else 0
    else (0 : Int)) = 0 := by
    split
    · rw [if_neg (not_lt.mpr h)]
    · rfl
  rw [h0, zero_add]

/-- The work contribution of a span is unchanged by a break that does not
overlap the span. -/
lemma spanWorkMinutes_cons_no_overlap (brk : BreakTime) (breaks : List BreakTime)
    (span : WorkSpan)
    (h : min (timeToMinutes (some span.end_time)) (timeToMinutes (some brk.«end»)) ≤
      max (timeToMinutes (some span.start_time)) (timeToMinutes (some brk.start))) :
    spanWorkMinutes (brk :: breaks) span = spanWorkMinutes breaks span := by
  simp only [spanWorkMinutes]
  split
  · rw [breakDeduction_cons_no_overlap brk _ _ breaks h]
  · rfl

/-- The night contribution of a span is unchanged by a break that does not
overlap the span: the night window is contained in the span whenever it is
non-empty. -/
lemma spanNightMinutes_cons_no_overlap (brk : BreakTime) (breaks : List BreakTime)
    (span : WorkSpan)
    (h : min (timeToMinutes (some span.end_time)) (timeToMinutes (some brk.«end»)) ≤
      max (timeToMinutes (some span.start_time)) (timeToMinutes (some brk.start))) :
    spanNightMinutes (brk :: breaks) span = spanNightMinutes breaks span := by
  simp only [spanNightMinutes, NIGHT_START]
  split
  · split
    · rw [breakDeduction_cons_no_overlap brk _ _ breaks (by omega)]
    · rfl
  · rfl

/-- C6: the scenario spans = [09:00 to 18:00], breaks = [08:00 to 08:30] yields
no deduction, workMinutes = 540 and overtimeMinutes = 60; in general a break
overlapping no span contributes nothing to any deduction, and nothing fails. -/
theorem calculateDailyStats_outsideBreak :
    calculateDailyStats [⟨"s1", "09:00", "18:00"⟩] [⟨"08:00", "08:30"⟩] =
      { workTime := 540, overtime := 60, nightTime := 0 } ∧
    ∀ (spans : List WorkSpan) (breaks : List BreakTime) (brk : BreakTime),
      (∀ span ∈ spans,
        min (timeToMinutes (some span.end_time)) (timeToMinutes (some brk.«end»)) ≤
        max (timeToMinutes (some span.start_time)) (timeToMinutes (some brk.start))) →
      calculateDailyStats spans (brk :: breaks) = calculateDailyStats spans breaks := by
  constructor
  · decide
  · intro spans breaks brk h
    simp only [calculateDailyStats]
    rw [List.map_congr_left fun span hs =>
        spanWorkMinutes_cons_no_overlap brk breaks span (h span hs),
      List.map_congr_left fun span hs =>
        spanNightMinutes_cons_no_overlap brk breaks span (h span hs)]

/-- C6 witness: the general statement instantiated on the scenario inputs,
where the break 08:00 to 08:30 lies outside the span 09:00 to 18:00. -/
theorem calculateDailyStats_outsideBreak_witness :
    (∀ span ∈ [(⟨"s1", "09:00", "18:00"⟩ : WorkSpan)],
      min (timeToMinutes (some span.end_time)) (timeToMinutes (some "08:30")) ≤
      max (timeToMinutes (some span.start_time)) (timeToMinutes (some "08:00"))) ∧
    calculateDailyStats [⟨"s1", "09:00", "18:00"⟩] [⟨"08:00", "08:30"⟩] =
      calculateDailyStats [⟨"s1", "09:00", "18:00"⟩] [] :=
  ⟨by decide,
    calculateDailyStats_outsideBreak.2 [⟨"s1", "09:00", "18:00"⟩] []
      ⟨"08:00", "08:30"⟩ (by decide)⟩

/-- The break deduction over a window is a sum over the break list, hence
invariant under permutation of the breaks. -/
lemma breakDeduction_perm {breaks1 breaks2 : List BreakTime}
    (h : breaks1.Perm breaks2) (lo hi : Int) :
    breakDeduction lo hi breaks1 = breakDeduction lo hi breaks2 :=
  (h.map _).sum_eq

/-- The work contribution of a span is invariant under permutation of the
breaks. -/
lemma spanWorkMinutes_perm {breaks1 breaks2 : List BreakTime}
    (h : breaks1.Perm breaks2) :
    spanWorkMinutes breaks1 = spanWorkMinutes breaks2 := by
  funext span
  simp only [spanWorkMinutes, breakDeduction_perm h]

/-- The night contribution of a span is invariant under permutation of the
breaks. -/
lemma spanNightMinutes_perm {breaks1 breaks2 : List BreakTime}
    (h : breaks1.Perm breaks2) :
    spanNightMinutes breaks1 = spanNightMinutes breaks2 := by
  funext span
  simp only [spanNightMinutes, breakDeduction_perm h]

/-- C8: the daily statistics are invariant under any permutation of the span
list and of the break list, and both lists empty give the all-zero record. -/
theorem calculateDailyStats_perm_invariant :
    (∀ (spans1 spans2 : List WorkSpan) (breaks1 breaks2 : List BreakTime),
      spans1.Perm spans2 → breaks1.Perm breaks2 →
      calculateDailyStats spans1 breaks1 = calculateDailyStats spans2 breaks2) ∧
    calculateDailyStats [] [] = { workTime := 0, overtime := 0, nightTime := 0 } := by
  constructor
  · intro spans1 spans2 breaks1 breaks2 hs hb
    simp only [calculateDailyStats, spanWorkMinutes_perm hb, spanNightMinutes_perm hb]
    rw [(hs.map (spanWorkMinutes breaks2)).sum_eq,
      (hs.map (spanNightMinutes breaks2)).sum_eq]
  · rfl

/-- C8 witness: swapping two concrete spans and two concrete breaks leaves the
result unchanged. -/
theorem calculateDailyStats_perm_invariant_witness :
    ([⟨"a", "09:00", "12:00"⟩, ⟨"b", "13:00", "18:00"⟩] : List WorkSpan).Perm
      [⟨"b", "13:00", "18:00"⟩, ⟨"a", "09:00", "12:00"⟩] ∧
    ([⟨"10:00", "10:15"⟩, ⟨"14:00", "14:30"⟩] : List BreakTime).Perm
      [⟨"14:00", "14:30"⟩, ⟨"10:00", "10:15"⟩] ∧
    calculateDailyStats [⟨"a", "09:00", "12:00"⟩, ⟨"b", "13:00", "18:00"⟩]
        [⟨"10:00", "10:15"⟩, ⟨"14:00", "14:30"⟩] =
      calculateDailyStats [⟨"b", "13:00", "18:00"⟩, ⟨"a", "09:00", "12:00"⟩]
        [⟨"14:00", "14:30"⟩, ⟨"10:00", "10:15"⟩] :=
  ⟨List.Perm.swap _ _ _, List.Perm.swap _ _ _,
    calculateDailyStats_perm_invariant.1 _ _ _ _
      (List.Perm.swap _ _ _) (List.Perm.swap _ _ _)⟩

/-- C9: the three embedded operations are total functions: every input, of any
list length and any field contents, produces a result. -/
theorem kintai_engine_total :
    (∀ (spans : List WorkSpan) (breaks : List BreakTime),
      ∃ r : DailyStats, calculateDailyStats spans breaks = r) ∧
    (∀ w o n hw : ℚ, ∃ z : Int, calculateEstimatedSalary w o n hw = z) ∧
    (∀ ts : Option String, ∃ m : Int, timeToMinutes ts = m) :=
  ⟨fun spans breaks => ⟨calculateDailyStats spans breaks, rfl⟩,
    fun w o n hw => ⟨calculateEstimatedSalary w o n hw, rfl⟩,
    fun ts => ⟨timeToMinutes ts, rfl⟩⟩

/-- C10: `timeToMinutes` maps `undefined`, colon-free strings, non-numeric
strings and the legitimate time string 00:00 all to 0, and every span whose
start converts to 0 is skipped entirely by `calculateDailyStats`, even when
its end is strictly later: a 00:00 to 08:00 shift counts zero minutes. -/
theorem calculateDailyStats_skips_zero_start :
    timeToMinutes none = 0 ∧
    timeToMinutes (some "00:00") = 0 ∧
    timeToMinutes (some "0800") = 0 ∧
    timeToMinutes (some "ab:cd") = 0 ∧
    (∀ (span : WorkSpan) (spans : List WorkSpan) (breaks : List BreakTime),
      timeToMinutes (some span.start_time) = 0 →
      calculateDailyStats (span :: spans) breaks = calculateDailyStats spans breaks) ∧
    calculateDailyStats [⟨"s1", "00:00", "08:00"⟩] [] =
      { workTime := 0, overtime := 0, nightTime := 0 } := by
  refine ⟨rfl, by decide, by decide, by decide, ?_, by decide⟩
  intro span spans breaks h
  exact calculateDailyStats_cons_skip span spans breaks (by omega)

/-- C10 witness: a 00:00 to 08:00 span in front of a 09:00 to 10:00 span is
skipped. -/
theorem calculateDailyStats_skips_zero_start_witness :
    timeToMinutes (some "00:00") = 0 ∧
    calculateDailyStats [⟨"z", "00:00", "08:00"⟩, ⟨"b", "09:00", "10:00"⟩] [] =
      calculateDailyStats [⟨"b", "09:00", "10:00"⟩] [] :=
  ⟨by decide,
    calculateDailyStats_skips_zero_start.2.2.2.2.1 ⟨"z", "00:00", "08:00"⟩
      [⟨"b", "09:00", "10:00"⟩] [] (by decide)⟩

end Kintai
